import Mathlib

/-!
Verification of display-temp.py: a polling loop that reads a TI SensorTag
over Bluetooth LE, appends readings to a CSV file and renders them on a
GFX-HAT display, choosing a backlight colour from the mean temperature.
The Python source is shallowly embedded below: numeric sensor values are
exact rationals (for concrete inputs we use the exact rational value of
the IEEE-754 double the interpreter would hold), the readings dictionary
is an insertion-ordered association list, exceptions are Except values,
and the I/O performed by a piece of code is recorded as an explicit event
trace.  The Rat arithmetic operations are restored to their default
reducibility so that concrete traces can be evaluated by decide.
-/

set_option allowUnsafeReducibility true

attribute [semireducible] Rat.mul Rat.add Rat.sub Rat.inv

namespace DisplayTemp

/-- An RGB colour triple as passed to backlight.set_all. -/
structure Color where
  r : Nat
  g : Nat
  b : Nat
deriving DecidableEq, Repr

/-- Backlight colour selection from the mean temperature, exactly the
if/elif chain of display-temp.py lines 186-197. -/
def chooseBacklight (mean_temp : ℚ) : Color :=
  if mean_temp > 28 then ⟨155, 0, 0⟩
  else if mean_temp > 27 then ⟨155, 75, 75⟩
  else if mean_temp < 24 then ⟨100, 100, 155⟩
  else if mean_temp < 23 then ⟨50, 50, 155⟩
  else if mean_temp < 22 then ⟨0, 0, 155⟩
  else ⟨155, 155, 155⟩

/-- Direction of a threshold comparison in the rule table. -/
inductive Cmp
  | gt
  | lt
deriving DecidableEq, Repr

/-- One rule of the threshold table: a strict comparison against a bound,
and the colour produced when it matches. -/
structure Rule where
  cmp : Cmp
  bound : ℚ
  color : Color
deriving DecidableEq, Repr

/-- Whether a rule matches a given mean temperature (strict inequality). -/
def ruleMatches (r : Rule) (m : ℚ) : Bool :=
  match r.cmp with
  | .gt => decide (m > r.bound)
  | .lt => decide (m < r.bound)

/-- The fixed ordered rule list as the specification words it: hot-red,
warm-red, cool-blue-light, cool-blue-mid, cool-blue-dark, with neutral-gray
as the default when nothing matches. -/
def thresholdRules : List Rule :=
  [⟨.gt, 28, ⟨155, 0, 0⟩⟩,
   ⟨.gt, 27, ⟨155, 75, 75⟩⟩,
   ⟨.lt, 24, ⟨100, 100, 155⟩⟩,
   ⟨.lt, 23, ⟨50, 50, 155⟩⟩,
   ⟨.lt, 22, ⟨0, 0, 155⟩⟩]

/-- First-match-wins evaluation of an ordered rule list, defaulting to
neutral-gray (155,155,155). -/
def firstMatch (rules : List Rule) (m : ℚ) : Color :=
  match rules with
  | [] => ⟨155, 155, 155⟩
  | r :: rest => if ruleMatches r m then r.color else firstMatch rest m

/-- Floor of a rational, computed from the numerator and denominator. -/
def ratFloor (q : ℚ) : ℤ :=
  q.num.fdiv q.den

/-- Round a rational to the nearest integer, ties to the even integer:
the rounding used by the Python builtin round. -/
def roundHalfEven (q : ℚ) : ℤ :=
  let f := ratFloor q
  if q - f < mkRat 1 2 then f
  else if q - f > mkRat 1 2 then f + 1
  else if f % 2 = 0 then f else f + 1

/-- Python round(value, 2) on the exact rational value of a float:
round value*100 half-to-even and divide by 100 (display-temp.py line 77). -/
def round2 (q : ℚ) : ℚ :=
  mkRat (roundHalfEven (q * 100)) 100

/-- A Python exception as the model sees it: a BTLE device-communication
fault from bluepy, or any other runtime error. -/
inductive PyError
  | btle (msg : String)
  | other (msg : String)
deriving DecidableEq, Repr

/-- The eight device capabilities that enable_sensors and disable_sensors
touch (display-temp.py lines 29-56); true means enabled. -/
structure SensorState where
  IRtemperature : Bool
  accelerometer : Bool
  humidity : Bool
  magnetometer : Bool
  barometer : Bool
  gyroscope : Bool
  keypress : Bool
  lightmeter : Bool
deriving DecidableEq, Repr

/-- All eight capabilities enabled. -/
def allEnabled : SensorState :=
  ⟨true, true, true, true, true, true, true, true⟩

/-- All eight capabilities disabled. -/
def allDisabled : SensorState :=
  ⟨false, false, false, false, false, false, false, false⟩

/-- enable_sensors (lines 29-43): call enable on each of the eight
capabilities, then sleep 1.0 seconds for stabilization (the sleep is
recorded as a trace event by get_readings). -/
def enable_sensors (s : SensorState) : SensorState :=
  { s with IRtemperature := true, accelerometer := true, humidity := true,
           magnetometer := true, barometer := true, gyroscope := true,
           keypress := true, lightmeter := true }

/-- disable_sensors (lines 46-55): call disable on each of the eight
capabilities. -/
def disable_sensors (s : SensorState) : SensorState :=
  { s with IRtemperature := false, accelerometer := false, humidity := false,
           magnetometer := false, barometer := false, gyroscope := false,
           keypress := false, lightmeter := false }

/-- Model of the SensorTag handle: its stored address and address type,
the outcome of each of the four sensor reads performed by get_readings
(each read yields a value or raises), and the outcome of tag.connect. -/
structure Tag where
  deviceAddr : String
  addrType : String
  irRead : Except PyError (ℚ × ℚ)
  humidityRead : Except PyError (ℚ × ℚ)
  barometerRead : Except PyError (ℚ × ℚ)
  lightRead : Except PyError ℚ
  connectResult : Except PyError Unit

/-- One field of a CSV row: the timestamp or a numeric reading. -/
inductive CsvField
  | time (t : ℕ)
  | num (q : ℚ)
deriving DecidableEq, Repr

/-- An observable I/O event of the program, in program order. -/
inductive Ev
  | clearBuffer
  | enableAll
  | stabilize
  | readIR
  | readHumidity
  | readBarometer
  | readLight
  | disableAll
  | printLine (s : String)
  | printExc (e : PyError)
  | printReadings
  | csvAppend (row : List CsvField)
  | drawFrame
  | backlightSetAll (c : Color)
  | backlightShow
  | lcdSetPixels
  | lcdShow
  | lcdClear
  | connectCall (addr : String) (addrType : String)
  | idleSleep
deriving DecidableEq, Repr

/-- Predicate for a CSV append event. -/
def isCsvAppend : Ev → Bool
  | .csvAppend _ => true
  | _ => false

/-- Predicate for the buffer clear event. -/
def isClearBuffer : Ev → Bool
  | .clearBuffer => true
  | _ => false

/-- Predicate for the text drawing event. -/
def isDrawFrame : Ev → Bool
  | .drawFrame => true
  | _ => false

/-- Predicate for the pixel push event. -/
def isLcdSetPixels : Ev → Bool
  | .lcdSetPixels => true
  | _ => false

/-- Predicate for the display commit event. -/
def isLcdShow : Ev → Bool
  | .lcdShow => true
  | _ => false

/-- Predicate for a connect attempt event. -/
def isConnectCall : Ev → Bool
  | .connectCall _ _ => true
  | _ => false

/-- get_readings (lines 59-83): enable all sensors, wait for
stabilization, read the IR, humidity, barometer and light sensors in
order, disable all sensors, and return every reading rounded to two
decimals, as the insertion-ordered dictionary; if any read raises a BTLE
fault, print a diagnostic and the exception and return the empty
dictionary.  Returns (event trace, sensor state, readings). -/
def get_readings (tag : Tag) (s : SensorState) :
    List Ev × SensorState × List (String × ℚ) :=
  let s1 := enable_sensors s
  match tag.irRead with
  | .error e =>
    ([.enableAll, .stabilize, .readIR,
      .printLine "Unable to take sensor readings.", .printExc e], s1, [])
  | .ok (ir_temp, ir) =>
    match tag.humidityRead with
    | .error e =>
      ([.enableAll, .stabilize, .readIR, .readHumidity,
        .printLine "Unable to take sensor readings.", .printExc e], s1, [])
    | .ok (humidity_temp, humidity) =>
      match tag.barometerRead with
      | .error e =>
        ([.enableAll, .stabilize, .readIR, .readHumidity, .readBarometer,
          .printLine "Unable to take sensor readings.", .printExc e], s1, [])
      | .ok (baro_temp, pressure) =>
        match tag.lightRead with
        | .error e =>
          ([.enableAll, .stabilize, .readIR, .readHumidity, .readBarometer,
            .readLight, .printLine "Unable to take sensor readings.",
            .printExc e], s1, [])
        | .ok light =>
          ([.enableAll, .stabilize, .readIR, .readHumidity, .readBarometer,
            .readLight, .disableAll],
           disable_sensors s1,
           [("ir_temp", round2 ir_temp), ("ir", round2 ir),
            ("humidity_temp", round2 humidity_temp),
            ("humidity", round2 humidity),
            ("baro_temp", round2 baro_temp), ("pressure", round2 pressure),
            ("light", round2 light)])

/-- reconnect (lines 86-92): call tag.connect with the stored device
address and address type; on any failure print a diagnostic and re-raise
the exception.  Returns (event trace, outcome). -/
def reconnect (tag : Tag) : List Ev × Except PyError Unit :=
  match tag.connectResult with
  | .ok _ => ([.connectCall tag.deviceAddr tag.addrType], .ok ())
  | .error e =>
    ([.connectCall tag.deviceAddr tag.addrType,
      .printLine "Unable to reconnect to SensorTag.", .printExc e], .error e)

/-- What one pass of the main loop leads to: the next iteration, or an
uncaught exception propagating out of the loop. -/
inductive Outcome
  | next
  | fatal (e : PyError)
deriving DecidableEq, Repr

/-- One iteration of the main polling loop (lines 142-207): clear the
image buffer, acquire readings; on an empty result print a notice,
attempt one reconnect and continue (skipping the idle sleep, or
propagating a reconnect failure); otherwise print the readings, append
one CSV row (timestamp then the seven metric values), draw the text
frame, set and show the backlight colour from the mean of the three
temperatures, push the pixels, commit the display and sleep for
FREQUENCY_SECONDS. -/
def loopIter (tag : Tag) (s : SensorState) (now : ℕ) :
    List Ev × SensorState × Outcome :=
  let acq := get_readings tag s
  if acq.2.2.isEmpty then
    let rc := reconnect tag
    match rc.2 with
    | .ok _ =>
      (Ev.clearBuffer :: acq.1 ++
        Ev.printLine "SensorTag disconnected. Reconnecting." :: rc.1,
       acq.2.1, .next)
    | .error e =>
      (Ev.clearBuffer :: acq.1 ++
        Ev.printLine "SensorTag disconnected. Reconnecting." :: rc.1,
       acq.2.1, .fatal e)
  else
    match acq.2.2.lookup "ir", acq.2.2.lookup "ir_temp",
          acq.2.2.lookup "humidity", acq.2.2.lookup "humidity_temp",
          acq.2.2.lookup "pressure", acq.2.2.lookup "baro_temp",
          acq.2.2.lookup "light" with
    | some ir, some ir_temp, some humidity, some humidity_temp,
      some pressure, some baro_temp, some light =>
      let fields : List CsvField :=
        [.time now, .num ir, .num ir_temp, .num humidity,
         .num humidity_temp, .num pressure, .num baro_temp, .num light]
      let mean_temp := (ir_temp + humidity_temp + baro_temp) / 3
      (Ev.clearBuffer :: acq.1 ++
        [Ev.printReadings, Ev.csvAppend fields, Ev.drawFrame,
         Ev.backlightSetAll (chooseBacklight mean_temp), Ev.backlightShow,
         Ev.lcdSetPixels, Ev.lcdShow, Ev.idleSleep],
       acq.2.1, .next)
    | _, _, _, _, _, _, _ =>
      (Ev.clearBuffer :: acq.1, acq.2.1, .fatal (.other "KeyError"))

/-- cleanup (lines 103-107): turn the backlight off, commit it, clear the
display and commit it. -/
def cleanup : List Ev :=
  [.backlightSetAll ⟨0, 0, 0⟩, .backlightShow, .lcdClear, .lcdShow]

/-- cleanup is registered with atexit exactly once (line 138). -/
def atexitRegistrations : ℕ := 1

/-- The ways the process can end: a KeyboardInterrupt caught by the
handler at line 209, or any other uncaught exception (such as a reconnect
failure) propagating out of main. -/
inductive ExitPath
  | interrupted
  | fatalError
deriving DecidableEq, Repr

/-- How many times cleanup runs on each exit path: on KeyboardInterrupt
the handler calls cleanup explicitly (line 210) and the interpreter then
runs the atexit-registered cleanup again on shutdown; on any other
termination only the atexit hook runs. -/
def cleanupRuns : ExitPath → ℕ
  | .interrupted => 1 + atexitRegistrations
  | .fatalError => atexitRegistrations

/-- Exact rational value of the double 21.5 (mock ir). -/
def mockIr : ℚ := mkRat 43 2

/-- Exact rational value of the double 25.33 (mock ir_temp). -/
def mockIrTemp : ℚ := mkRat 1782440290020229 70368744177664

/-- Exact rational value of the double 40.12 (mock humidity). -/
def mockHumidity : ℚ := mkRat 5646388032815759 140737488355328

/-- Exact rational value of the double 25.50 (mock humidity_temp). -/
def mockHumidityTemp : ℚ := mkRat 51 2

/-- Exact rational value of the double 1012.345 (mock pressure). -/
def mockPressure : ℚ := mkRat 4452340395283579 4398046511104

/-- Exact rational value of the double 25.20 (mock baro_temp). -/
def mockBaroTemp : ℚ := mkRat 7093169413108531 281474976710656

/-- Exact rational value of the double 150.678 (mock light). -/
def mockLight : ℚ := mkRat 1325377704400257 8796093022208

/-- A connected tag returning the mock sensor values, every read and the
connect call succeeding. -/
def mockTag : Tag :=
  { deviceAddr := "24:71:89:BC:4C:00", addrType := "public",
    irRead := .ok (mockIrTemp, mockIr),
    humidityRead := .ok (mockHumidityTemp, mockHumidity),
    barometerRead := .ok (mockBaroTemp, mockPressure),
    lightRead := .ok mockLight,
    connectResult := .ok () }

/-- A tag whose first sensor read raises a BTLE fault; reconnect succeeds. -/
def tagReadFault : Tag :=
  { deviceAddr := "24:71:89:BC:4C:00", addrType := "public",
    irRead := .error (.btle "device disconnected"),
    humidityRead := .ok (0, 0),
    barometerRead := .ok (0, 0),
    lightRead := .ok 0,
    connectResult := .ok () }

/-- A tag whose first sensor read raises a BTLE fault and whose reconnect
also fails. -/
def tagConnectFault : Tag :=
  { deviceAddr := "24:71:89:BC:4C:00", addrType := "public",
    irRead := .error (.btle "device disconnected"),
    humidityRead := .ok (0, 0),
    barometerRead := .ok (0, 0),
    lightRead := .ok 0,
    connectResult := .error (.other "Failed to connect") }

/-- The CSV row the mock cycle appends: the timestamp and the seven
rounded metric values (21.5, 25.33, 40.12, 25.5, 1012.35, 25.2, 150.68). -/
def mockRow : List CsvField :=
  [.time 0, .num (mkRat 43 2), .num (mkRat 2533 100), .num (mkRat 1003 25),
   .num (mkRat 51 2), .num (mkRat 20247 20), .num (mkRat 126 5),
   .num (mkRat 3767 25)]

/-- C1: the backlight colour is chosen from the mean of the three
temperature channels by evaluating the fixed rule list in this exact
order with first-match-wins and strict inequalities; the code chain of
lines 186-197 equals first-match evaluation of the ordered table, and at
each boundary value the rule carrying that bound does not match. -/
theorem C1_threshold_table_first_match :
    (∀ m : ℚ, chooseBacklight m = firstMatch thresholdRules m) ∧
    (∀ r ∈ thresholdRules, ruleMatches r r.bound = false) := by
  constructor
  · intro m
    simp only [chooseBacklight, firstMatch, thresholdRules, ruleMatches]
    split_ifs <;> simp_all <;> linarith
  · intro r hr
    fin_cases hr <;> simp [ruleMatches]

/-- C1 witness: the table evaluation agrees with the code at mean 25.0,
and the rule bounded at 28 does not match at exactly 28. -/
theorem C1_threshold_table_first_match_witness :
    chooseBacklight 25 = firstMatch thresholdRules 25 ∧
    ruleMatches ⟨Cmp.gt, 28, ⟨155, 0, 0⟩⟩ 28 = false :=
  ⟨C1_threshold_table_first_match.1 25,
   C1_threshold_table_first_match.2 ⟨Cmp.gt, 28, ⟨155, 0, 0⟩⟩ (by decide)⟩

/-- C2 counterexample: the claim sends mean 22.9 to cool-blue-mid
(50,50,155), but the code first matches the mean < 24 branch and yields
cool-blue-light (100,100,155). -/
theorem C2_counterexample : chooseBacklight (mkRat 229 10) ≠ ⟨50, 50, 155⟩ := by
  decide

/-- C2 amended: 28.5 gives hot-red, 27.2 warm-red, 23.9 cool-blue-light
and 25.0 neutral-gray as claimed, but 22.9 and 21.9 both give
cool-blue-light (100,100,155), because the mean < 24 branch fires before
the mean < 23 and mean < 22 branches. -/
theorem C2_concrete_mean_colors :
    chooseBacklight (mkRat 285 10) = ⟨155, 0, 0⟩ ∧
    chooseBacklight (mkRat 272 10) = ⟨155, 75, 75⟩ ∧
    chooseBacklight (mkRat 239 10) = ⟨100, 100, 155⟩ ∧
    chooseBacklight (mkRat 229 10) = ⟨100, 100, 155⟩ ∧
    chooseBacklight (mkRat 219 10) = ⟨100, 100, 155⟩ ∧
    chooseBacklight 25 = ⟨155, 155, 155⟩ := by
  decide

/-- C3: get_readings either returns the complete reading set of exactly
the seven metrics ir_temp, ir, humidity_temp, humidity, baro_temp,
pressure, light, every value rounded to two decimals, or on a BTLE fault
prints a diagnostic and returns the empty dictionary; it never returns a
partial set, and no exception escapes (the model returns totally). -/
theorem C3_complete_or_empty (tag : Tag) (s : SensorState) :
    (∃ a b c d p q l : ℚ,
      tag.irRead = .ok (a, b) ∧ tag.humidityRead = .ok (c, d) ∧
      tag.barometerRead = .ok (p, q) ∧ tag.lightRead = .ok l ∧
      (get_readings tag s).2.2 =
        [("ir_temp", round2 a), ("ir", round2 b), ("humidity_temp", round2 c),
         ("humidity", round2 d), ("baro_temp", round2 p),
         ("pressure", round2 q), ("light", round2 l)]) ∨
    ((get_readings tag s).2.2 = [] ∧
     Ev.printLine "Unable to take sensor readings." ∈ (get_readings tag s).1) := by
  rcases h1 : tag.irRead with e1 | ⟨a1, b1⟩
  · right
    simp [get_readings, h1]
  rcases h2 : tag.humidityRead with e2 | ⟨a2, b2⟩
  · right
    simp [get_readings, h1, h2]
  rcases h3 : tag.barometerRead with e3 | ⟨a3, b3⟩
  · right
    simp [get_readings, h1, h2, h3]
  rcases h4 : tag.lightRead with e4 | c4
  · right
    simp [get_readings, h1, h2, h3, h4]
  · left
    refine ⟨a1, b1, a2, b2, a3, b3, c4, rfl, rfl, rfl, rfl, ?_⟩
    simp [get_readings, h1, h2, h3, h4]

/-- C9: whenever a sensor read raises a fault, disable_sensors is never
invoked in that call of get_readings: the trace records enable but no
disable, all eight capabilities are left enabled in the returned state,
and the result is empty. -/
theorem C9_fault_leaves_sensors_enabled (tag : Tag) (s : SensorState)
    (hf : (∃ x, tag.irRead = .error x) ∨ (∃ x, tag.humidityRead = .error x) ∨
          (∃ x, tag.barometerRead = .error x) ∨ (∃ x, tag.lightRead = .error x)) :
    Ev.enableAll ∈ (get_readings tag s).1 ∧
    Ev.disableAll ∉ (get_readings tag s).1 ∧
    (get_readings tag s).2.1 = allEnabled ∧
    (get_readings tag s).2.2 = [] := by
  rcases h1 : tag.irRead with e1 | ⟨a1, b1⟩
  · simp [get_readings, h1, enable_sensors, allEnabled]
  rcases h2 : tag.humidityRead with e2 | ⟨a2, b2⟩
  · simp [get_readings, h1, h2, enable_sensors, allEnabled]
  rcases h3 : tag.barometerRead with e3 | ⟨a3, b3⟩
  · simp [get_readings, h1, h2, h3, enable_sensors, allEnabled]
  rcases h4 : tag.lightRead with e4 | c4
  · simp [get_readings, h1, h2, h3, h4, enable_sensors, allEnabled]
  · simp_all

/-- C9 witness: with the first read faulting, the sensors stay enabled
and no disable event is traced. -/
theorem C9_fault_leaves_sensors_enabled_witness :
    Ev.disableAll ∉ (get_readings tagReadFault allDisabled).1 ∧
    (get_readings tagReadFault allDisabled).2.1 = allEnabled := by
  have h := C9_fault_leaves_sensors_enabled tagReadFault allDisabled
    (Or.inl ⟨PyError.btle "device disconnected", rfl⟩)
  exact ⟨h.2.1, h.2.2.1⟩

/-- C4: reconnect calls tag.connect with the stored device address and
address type; on failure it prints a diagnostic and re-raises the same
exception unconditionally, so inside the loop a reconnect failure
surfaces as a fatal outcome terminating the program. -/
theorem C4_reconnect_uses_stored_address_and_reraises (tag : Tag) (e : PyError)
    (h : tag.connectResult = .error e) :
    (reconnect tag).1.head? = some (Ev.connectCall tag.deviceAddr tag.addrType) ∧
    (reconnect tag).2 = .error e ∧
    Ev.printLine "Unable to reconnect to SensorTag." ∈ (reconnect tag).1 ∧
    (∀ s now, (get_readings tag s).2.2 = [] →
      (loopIter tag s now).2.2 = .fatal e) := by
  refine ⟨by simp [reconnect, h], by simp [reconnect, h], by simp [reconnect, h], ?_⟩
  intro s now hs
  simp [loopIter, reconnect, h, hs]

/-- C4 witness: with a failing read and a failing connect, reconnect
returns the connect error and the loop iteration ends fatally with it. -/
theorem C4_reconnect_witness :
    (reconnect tagConnectFault).2 = .error (PyError.other "Failed to connect") ∧
    (loopIter tagConnectFault allDisabled 0).2.2 =
      .fatal (PyError.other "Failed to connect") := by
  have h := C4_reconnect_uses_stored_address_and_reraises tagConnectFault
    (PyError.other "Failed to connect") rfl
  exact ⟨h.2.1, h.2.2.2 allDisabled 0 rfl⟩

/-- C5: a cycle with a non-empty reading set appends exactly one CSV row
and performs exactly one full redraw (one buffer clear, one text draw,
one pixel push, one display commit) and no reconnect; a cycle with an
empty reading set writes zero CSV rows, commits no redraw, and makes
exactly one reconnect attempt. -/
theorem C5_one_row_one_redraw_per_cycle (tag : Tag) (s : SensorState) (now : ℕ) :
    ((get_readings tag s).2.2 ≠ [] →
      (loopIter tag s now).1.countP isCsvAppend = 1 ∧
      (loopIter tag s now).1.countP isClearBuffer = 1 ∧
      (loopIter tag s now).1.countP isDrawFrame = 1 ∧
      (loopIter tag s now).1.countP isLcdSetPixels = 1 ∧
      (loopIter tag s now).1.countP isLcdShow = 1 ∧
      (loopIter tag s now).1.countP isConnectCall = 0) ∧
    ((get_readings tag s).2.2 = [] →
      (loopIter tag s now).1.countP isCsvAppend = 0 ∧
      (loopIter tag s now).1.countP isLcdShow = 0 ∧
      (loopIter tag s now).1.countP isConnectCall = 1) := by
  rcases h1 : tag.irRead with e1 | ⟨a1, b1⟩
  · constructor
    · intro hne
      exact absurd (by simp [get_readings, h1]) hne
    · intro _
      rcases hc : tag.connectResult with ce | cu <;>
        simp [loopIter, get_readings, reconnect, h1, hc, isCsvAppend, isLcdShow,
              isConnectCall, List.countP_cons, List.countP_nil]
  rcases h2 : tag.humidityRead with e2 | ⟨a2, b2⟩
  · constructor
    · intro hne
      exact absurd (by simp [get_readings, h1, h2]) hne
    · intro _
      rcases hc : tag.connectResult with ce | cu <;>
        simp [loopIter, get_readings, reconnect, h1, h2, hc, isCsvAppend, isLcdShow,
              isConnectCall, List.countP_cons, List.countP_nil]
  rcases h3 : tag.barometerRead with e3 | ⟨a3, b3⟩
  · constructor
    · intro hne
      exact absurd (by simp [get_readings, h1, h2, h3]) hne
    · intro _
      rcases hc : tag.connectResult with ce | cu <;>
        simp [loopIter, get_readings, reconnect, h1, h2, h3, hc, isCsvAppend, isLcdShow,
              isConnectCall, List.countP_cons, List.countP_nil]
  rcases h4 : tag.lightRead with e4 | c4
  · constructor
    · intro hne
      exact absurd (by simp [get_readings, h1, h2, h3, h4]) hne
    · intro _
      rcases hc : tag.connectResult with ce | cu <;>
        simp [loopIter, get_readings, reconnect, h1, h2, h3, h4, hc, isCsvAppend, isLcdShow,
              isConnectCall, List.countP_cons, List.countP_nil]
  · constructor
    · intro _
      simp [loopIter, get_readings, h1, h2, h3, h4, List.lookup, isCsvAppend, isClearBuffer,
            isDrawFrame, isLcdSetPixels, isLcdShow, isConnectCall,
            List.countP_cons, List.countP_nil]
    · intro hs
      simp [get_readings, h1, h2, h3, h4] at hs

/-- C5 witness: the mock cycle appends exactly one CSV row; a cycle whose
read faults appends none. -/
theorem C5_one_row_one_redraw_per_cycle_witness :
    (loopIter mockTag allDisabled 0).1.countP isCsvAppend = 1 ∧
    (loopIter tagReadFault allDisabled 0).1.countP isCsvAppend = 0 :=
  ⟨((C5_one_row_one_redraw_per_cycle mockTag allDisabled 0).1 (by decide)).1,
   ((C5_one_row_one_redraw_per_cycle tagReadFault allDisabled 0).2 rfl).1⟩

/-- C6 counterexample: the row the mock cycle appends is a timestamp
followed by seven metric values, not eight. -/
theorem C6_counterexample :
    Ev.csvAppend mockRow ∈ (loopIter mockTag allDisabled 0).1 ∧
    mockRow.tail.length = 7 ∧ ¬ mockRow.tail.length = 8 := by
  decide

/-- C6 amended: every appended row is the timestamp followed by the seven
metric values in fixed order ir, ir_temp, humidity, humidity_temp,
pressure, baro_temp, light (eight comma-separated fields in all, no
header row), and exactly one such row is appended per successful cycle. -/
theorem C6_csv_row_is_timestamp_then_seven_values (tag : Tag) (s : SensorState)
    (now : ℕ) (a1 b1 a2 b2 a3 b3 c4 : ℚ)
    (h1 : tag.irRead = .ok (a1, b1)) (h2 : tag.humidityRead = .ok (a2, b2))
    (h3 : tag.barometerRead = .ok (a3, b3)) (h4 : tag.lightRead = .ok c4) :
    Ev.csvAppend
      [CsvField.time now, .num (round2 b1), .num (round2 a1), .num (round2 b2),
       .num (round2 a2), .num (round2 b3), .num (round2 a3), .num (round2 c4)]
      ∈ (loopIter tag s now).1 ∧
    (loopIter tag s now).1.countP isCsvAppend = 1 := by
  simp [loopIter, get_readings, h1, h2, h3, h4, List.lookup, isCsvAppend,
        List.countP_cons, List.countP_nil]

/-- C6 witness: the mock cycle appends the row with the rounded mock
values in the fixed column order. -/
theorem C6_csv_row_witness :
    Ev.csvAppend
      [CsvField.time 0, .num (round2 mockIr), .num (round2 mockIrTemp),
       .num (round2 mockHumidity), .num (round2 mockHumidityTemp),
       .num (round2 mockPressure), .num (round2 mockBaroTemp),
       .num (round2 mockLight)]
      ∈ (loopIter mockTag allDisabled 0).1 ∧
    (loopIter mockTag allDisabled 0).1.countP isCsvAppend = 1 :=
  C6_csv_row_is_timestamp_then_seven_values mockTag allDisabled 0
    mockIrTemp mockIr mockHumidityTemp mockHumidity mockBaroTemp mockPressure
    mockLight rfl rfl rfl rfl

/-- C7 counterexample: on the manual-interrupt exit path cleanup runs
twice (the explicit handler call plus the atexit hook), not exactly once. -/
theorem C7_counterexample :
    cleanupRuns ExitPath.interrupted = 2 ∧
    ¬ cleanupRuns ExitPath.interrupted = 1 := by
  decide

/-- C7 amended: the shutdown hook runs at least once on every exit path:
exactly twice on manual interrupt (explicit call at line 210 plus the
atexit registration of line 138) and exactly once on any other process
termination. -/
theorem C7_cleanup_runs_per_exit_path :
    (∀ p : ExitPath, 1 ≤ cleanupRuns p) ∧
    cleanupRuns ExitPath.interrupted = 2 ∧
    cleanupRuns ExitPath.fatalError = 1 := by
  refine ⟨fun p => ?_, by decide, by decide⟩
  cases p <;> decide

/-- C8 counterexample: the row emitted for the mock cycle has eight
fields in all (a timestamp plus seven metric values), not a timestamp
plus eight fields. -/
theorem C8_counterexample :
    Ev.csvAppend mockRow ∈ (loopIter mockTag allDisabled 0).1 ∧
    mockRow.length = 8 ∧ ¬ mockRow.length = 9 := by
  decide

/-- C8 amended: on the mock inputs the cycle rounds pressure 1012.345 to
1012.35 and light 150.678 to 150.68, computes the mean temperature
(25.33+25.50+25.20)/3 = 7603/300 = 25.3433..., selects neutral-gray
(155,155,155), and appends exactly one CSV row holding the timestamp and
the seven rounded values. -/
theorem C8_mock_cycle_values :
    round2 mockPressure = mkRat 101235 100 ∧
    round2 mockLight = mkRat 15068 100 ∧
    (round2 mockIrTemp + round2 mockHumidityTemp + round2 mockBaroTemp) / 3 =
      mkRat 7603 300 ∧
    chooseBacklight (mkRat 7603 300) = ⟨155, 155, 155⟩ ∧
    Ev.backlightSetAll ⟨155, 155, 155⟩ ∈ (loopIter mockTag allDisabled 0).1 ∧
    Ev.csvAppend mockRow ∈ (loopIter mockTag allDisabled 0).1 ∧
    (loopIter mockTag allDisabled 0).1.countP isCsvAppend = 1 ∧
    mockRow.length = 8 := by
  decide

/-- C10: the FREQUENCY_SECONDS idle sleep happens only at the end of a
successful cycle: when acquisition is empty the iteration contains a
reconnect attempt and no idle sleep, and on a successful reconnect
control immediately returns to the top of the loop; when acquisition
succeeds the idle sleep is the last event of the iteration. -/
theorem C10_idle_only_after_success (tag : Tag) (s : SensorState) (now : ℕ) :
    ((get_readings tag s).2.2 = [] →
      Ev.idleSleep ∉ (loopIter tag s now).1 ∧
      Ev.connectCall tag.deviceAddr tag.addrType ∈ (loopIter tag s now).1 ∧
      (tag.connectResult = .ok () → (loopIter tag s now).2.2 = .next)) ∧
    ((get_readings tag s).2.2 ≠ [] →
      (loopIter tag s now).1.getLast? = some Ev.idleSleep) := by
  rcases h1 : tag.irRead with e1 | ⟨a1, b1⟩
  · constructor
    · intro _
      rcases hc : tag.connectResult with ce | cu <;>
        simp [loopIter, get_readings, reconnect, h1, hc]
    · intro hne
      exact absurd (by simp [get_readings, h1]) hne
  rcases h2 : tag.humidityRead with e2 | ⟨a2, b2⟩
  · constructor
    · intro _
      rcases hc : tag.connectResult with ce | cu <;>
        simp [loopIter, get_readings, reconnect, h1, h2, hc]
    · intro hne
      exact absurd (by simp [get_readings, h1, h2]) hne
  rcases h3 : tag.barometerRead with e3 | ⟨a3, b3⟩
  · constructor
    · intro _
      rcases hc : tag.connectResult with ce | cu <;>
        simp [loopIter, get_readings, reconnect, h1, h2, h3, hc]
    · intro hne
      exact absurd (by simp [get_readings, h1, h2, h3]) hne
  rcases h4 : tag.lightRead with e4 | c4
  · constructor
    · intro _
      rcases hc : tag.connectResult with ce | cu <;>
        simp [loopIter, get_readings, reconnect, h1, h2, h3, h4, hc]
    · intro hne
      exact absurd (by simp [get_readings, h1, h2, h3, h4]) hne
  · constructor
    · intro hs
      simp [get_readings, h1, h2, h3, h4] at hs
    · intro _
      simp [loopIter, get_readings, h1, h2, h3, h4, List.lookup]

/-- C10 witness: a faulting cycle has no idle sleep in its trace; the
mock cycle ends with the idle sleep. -/
theorem C10_idle_only_after_success_witness :
    Ev.idleSleep ∉ (loopIter tagReadFault allDisabled 0).1 ∧
    (loopIter mockTag allDisabled 0).1.getLast? = some Ev.idleSleep :=
  ⟨((C10_idle_only_after_success tagReadFault allDisabled 0).1 rfl).1,
   (C10_idle_only_after_success mockTag allDisabled 0).2 (by decide)⟩

end DisplayTemp
